import Mathlib

/-!
Shallow embedding of `src/simple-endpoint-monitor-app-api/app.py`
(the "simple-endpoint-monitor-app" repository).

The program probes a list of HTTP(S) URLs.  `check_endpoint` (the Checker)
issues one GET per URL and maps the outcome to a result record;
`check_endpoints` (the Dispatcher, route `/check-endpoints`) reads the URL
file, runs the checks over a thread pool and collects the results.

Modelling decisions:
* The effect of `requests.get(url, timeout=timeout)` is an environment-chosen
  `ReqOutcome`: the call can return a response (status code plus the measured
  wall-clock elapsed time), raise `requests.exceptions.Timeout`, raise some
  other `requests.exceptions.RequestException` (carrying the exception class
  name), or raise an exception outside the `RequestException` hierarchy
  (also carrying its class name).  A behaviour function `beh : String →
  ReqOutcome` fixes the outcome per URL.
* Python exceptions that escape a function are modelled with
  `Except String _`, the error carrying the exception class name.
  `future.result()` re-raises the exception of its unit of work, so the
  dispatcher loop propagates the first escaping exception.
* Python floats are modelled as `ℚ`; Python ints as `ℤ`.
  `round(x, 2)` is modelled as rounding `100 * x` to the nearest integer and
  dividing by `100` (Python's float `round` breaks exact ties to even; exact
  ties are irrelevant to every claim here and essentially never arise from
  `time.time()` subtraction, so the tie-breaking rule is not modelled).
* The thread pool interleaving is not modelled: `as_completed` yields results
  in completion order, a permutation of submission order, so the embedding
  collects them in submission order and all list-level statements are made up
  to multiset equality where the claims demand it.
-/

deriving instance DecidableEq for Except

namespace EndpointMonitor

/-- Python `str.strip()` on a character list: drop leading and trailing
whitespace (the ASCII whitespace characters Lean's `Char.isWhitespace`
covers; the further Unicode whitespace Python also strips never occurs in
the inputs considered here). -/
def pyStripChars (cs : List Char) : List Char :=
  ((cs.dropWhile Char.isWhitespace).reverse.dropWhile Char.isWhitespace).reverse

/-- Python `str.strip()` on a string. -/
def pyStrip (s : String) : String := ⟨pyStripChars s.data⟩

/-- Python `str.startswith("#")`: the first character is `#`. -/
def startsWithHash (s : String) : Bool :=
  match s.data with
  | c :: _ => c == '#'
  | [] => false

/-- Possible behaviours of the `requests.get(url, timeout=timeout)` call in
`check_endpoint` (app.py line 42): a response object arrives (carrying an
HTTP status code, with the wall-clock elapsed time `time.time() - start`
measured around the call), or the call raises `requests.exceptions.Timeout`,
or it raises another `requests.exceptions.RequestException` (class name
recorded), or it raises an exception outside the `RequestException`
hierarchy (class name recorded). -/
inductive ReqOutcome where
  | success (statusCode : ℕ) (elapsedRaw : ℚ)
  | timeoutExc
  | requestExc (excName : String)
  | otherExc (excName : String)
deriving DecidableEq

/-- The `EndpointResult` pydantic model (app.py lines 32–36):
`url : str`, `result : str`, `status : int | None`, `time : float | None`.
Field order follows the source. -/
structure EndpointResult where
  url : String
  result : String
  status : Option ℕ
  time : Option ℚ
deriving DecidableEq

/-- `round(x, 2)` of app.py line 43: round to two decimal places. -/
def round2 (x : ℚ) : ℚ := (round (x * 100) : ℤ) / 100

/-- `check_endpoint(url, timeout)` (app.py lines 39–58).  The `try` block
measures `elapsed = round(time.time() - start, 2)` and on a received response
returns `{url, status, time, result}` with `result = "UP" if elapsed <=
timeout else "TIMEOUT"`.  `except requests.exceptions.Timeout` returns a
`TIMEOUT` record with `status`/`time` both `None`; `except
requests.exceptions.RequestException as e` returns a
`"DOWN (<class name>)"` record with `status`/`time` both `None`.  There is no
further `except` clause, so any exception outside the `RequestException`
hierarchy escapes the function (modelled as `Except.error`). -/
def check_endpoint (url : String) (timeout : ℤ) (beh : ReqOutcome) :
    Except String EndpointResult :=
  match beh with
  | ReqOutcome.success statusCode elapsedRaw =>
      Except.ok ⟨url, if round2 elapsedRaw ≤ (timeout : ℚ) then "UP" else "TIMEOUT",
        some statusCode, some (round2 elapsedRaw)⟩
  | ReqOutcome.timeoutExc => Except.ok ⟨url, "TIMEOUT", none, none⟩
  | ReqOutcome.requestExc e => Except.ok ⟨url, "DOWN (" ++ e ++ ")", none, none⟩
  | ReqOutcome.otherExc e => Except.error e

/-- The list comprehension of app.py lines 66–71: keep each `line.strip()`
that is non-empty and does not start with `#`. -/
def parseUrls (lines : List String) : List String :=
  (lines.map pyStrip).filter (fun l => !(l == "") && !(startsWithHash l))

/-- The dispatch loop of app.py lines 73–77: every URL is submitted to the
pool, and `future.result()` is collected for each future.  `future.result()`
re-raises any exception that escaped the unit of work, in which case the
loop (and with it `check_endpoints`) raises; the results gathered so far are
lost.  Collection is modelled in submission order (`as_completed` yields a
permutation of it). -/
def runChecks (urls : List String) (timeout : ℤ) (beh : String → ReqOutcome) :
    Except String (List EndpointResult) :=
  match urls with
  | [] => Except.ok []
  | url :: rest =>
      match check_endpoint url timeout (beh url) with
      | Except.error e => Except.error e
      | Except.ok r =>
          match runChecks rest timeout beh with
          | Except.error e => Except.error e
          | Except.ok rs => Except.ok (r :: rs)

/-- `check_endpoints()` (app.py lines 61–79), the `/check-endpoints` route.
`urlFile = none` models `os.path.exists(URL_FILE)` being false (the URL file
is missing): the route returns the single synthetic record.  `urlFile = some
lines` models the file's lines; the route filters them with `parseUrls` and
runs the checks. -/
def check_endpoints (urlFile : Option (List String)) (timeout : ℤ)
    (beh : String → ReqOutcome) : Except String (List EndpointResult) :=
  match urlFile with
  | none => Except.ok [⟨"N/A", "ERROR: URL file not found", none, none⟩]
  | some lines => runChecks (parseUrls lines) timeout beh

/-- Python `int(s)` on a string (app.py lines 14 and 16): leading and
trailing whitespace is stripped, then an optional sign followed by a
non-empty digit string (single underscores allowed between digits) is
accepted; anything else — in particular a fractional literal like `"30.5"`
or a non-numeric string — raises `ValueError` (modelled as `none`). -/
def pyIntDigitsAux (acc : ℕ) : List Char → Option ℕ
  | [] => some acc
  | c :: cs =>
      if c.isDigit then pyIntDigitsAux (10 * acc + (c.toNat - 48)) cs
      else if c = '_' then
        match cs with
        | [] => none
        | c2 :: cs2 =>
            if c2.isDigit then pyIntDigitsAux (10 * acc + (c2.toNat - 48)) cs2
            else none
      else none

/-- Parse a non-empty run of digits (Python `int` digit grammar): the first
character must be a digit. -/
def pyIntDigits : List Char → Option ℕ
  | [] => none
  | c :: cs => if c.isDigit then pyIntDigitsAux (c.toNat - 48) cs else none

/-- Python `int(s)` for a string `s`: see `pyIntDigitsAux`. -/
def pyInt (s : String) : Option ℤ :=
  match pyStripChars s.data with
  | [] => none
  | c :: cs =>
      if c = '+' then (pyIntDigits cs).map (fun n => (n : ℤ))
      else if c = '-' then (pyIntDigits cs).map (fun n => -(n : ℤ))
      else (pyIntDigits (c :: cs)).map (fun n => (n : ℤ))

/-- `TIMEOUT = int(os.getenv("TIMEOUT", 30))` (app.py line 14): when the
environment variable is unset, `os.getenv` returns the default `30` (an
`int`, and `int(30) = 30`); when it is set to a string, `int` parses it and
raises `ValueError` (`none`) on anything but an integer literal. -/
def TIMEOUT_config (env : Option String) : Option ℤ :=
  match env with
  | none => some 30
  | some s => pyInt s

/-- `MAX_WORKERS = int(os.getenv("MAX_WORKERS", 10))` (app.py line 16),
default `10`. -/
def MAX_WORKERS_config (env : Option String) : Option ℤ :=
  match env with
  | none => some 10
  | some s => pyInt s

/-- A `check_endpoint` call that returns (rather than raises) echoes the
input URL unchanged in the `url` field. -/
lemma check_endpoint_url (url : String) (timeout : ℤ) (b : ReqOutcome)
    (r : EndpointResult) (h : check_endpoint url timeout b = Except.ok r) :
    r.url = url := by
  cases b <;> simp [check_endpoint] at h <;> simp [← h]

/-- A `check_endpoint` call that returns produces a record whose `status`
and `time` fields are present or absent together. -/
lemma check_endpoint_status_iff_time (url : String) (timeout : ℤ)
    (b : ReqOutcome) (r : EndpointResult)
    (h : check_endpoint url timeout b = Except.ok r) :
    r.status.isSome ↔ r.time.isSome := by
  cases b <;> simp [check_endpoint] at h <;> simp [← h]

/-- When the dispatch loop returns a list, its `url` fields are exactly the
submitted URLs, in submission order. -/
lemma runChecks_urls (urls : List String) (timeout : ℤ)
    (beh : String → ReqOutcome) (rs : List EndpointResult)
    (h : runChecks urls timeout beh = Except.ok rs) :
    rs.map EndpointResult.url = urls := by
  induction urls generalizing rs with
  | nil =>
      simp [runChecks] at h
      simp [← h]
  | cons u rest ih =>
      rw [runChecks] at h
      cases hc : check_endpoint u timeout (beh u) with
      | error e => rw [hc] at h; exact absurd h (by simp)
      | ok r =>
          rw [hc] at h
          cases hr : runChecks rest timeout beh with
          | error e => rw [hr] at h; exact absurd h (by simp)
          | ok rs' =>
              rw [hr] at h
              cases h
              simp [check_endpoint_url u timeout (beh u) r hc, ih rs' hr]

/-- Every record in a returned dispatch-loop list has `status` and `time`
present or absent together. -/
lemma runChecks_status_iff_time (urls : List String) (timeout : ℤ)
    (beh : String → ReqOutcome) (rs : List EndpointResult)
    (h : runChecks urls timeout beh = Except.ok rs) :
    ∀ r ∈ rs, (r.status.isSome ↔ r.time.isSome) := by
  induction urls generalizing rs with
  | nil =>
      simp [runChecks] at h
      subst h
      simp
  | cons u rest ih =>
      rw [runChecks] at h
      cases hc : check_endpoint u timeout (beh u) with
      | error e => rw [hc] at h; exact absurd h (by simp)
      | ok r =>
          rw [hc] at h
          cases hr : runChecks rest timeout beh with
          | error e => rw [hr] at h; exact absurd h (by simp)
          | ok rs' =>
              rw [hr] at h
              cases h
              intro r' hr'
              rcases List.mem_cons.mp hr' with h1 | h2
              · subst h1
                exact check_endpoint_status_iff_time u timeout (beh u) r' hc
              · exact ih rs' hr r' h2

/-- If no URL's behaviour raises outside the `RequestException` hierarchy,
the dispatch loop returns a list. -/
lemma runChecks_ok_of_handled (urls : List String) (timeout : ℤ)
    (beh : String → ReqOutcome)
    (h : ∀ url e, beh url ≠ ReqOutcome.otherExc e) :
    ∃ rs, runChecks urls timeout beh = Except.ok rs := by
  induction urls with
  | nil => exact ⟨[], rfl⟩
  | cons u rest ih =>
      obtain ⟨rs, hrs⟩ := ih
      have hok : ∃ r, check_endpoint u timeout (beh u) = Except.ok r := by
        cases hb : beh u with
        | success c q => exact ⟨_, rfl⟩
        | timeoutExc => exact ⟨_, rfl⟩
        | requestExc e => exact ⟨_, rfl⟩
        | otherExc e => exact absurd hb (h u e)
      obtain ⟨r, hr⟩ := hok
      exact ⟨r :: rs, by rw [runChecks, hr, hrs]⟩

/-- C1 counterexample: the claim that every fault — including unexpected
exceptions outside the ordinary request-failure hierarchy — is captured and
converted to a result is false of the code.  With two URLs where checking
the second raises a `TypeError` (not a `requests.exceptions.RequestException`),
`check_endpoints` itself raises and the first URL's already-computed result
is lost with the rest of the batch. -/
theorem check_endpoints_raises_on_unexpected_exception :
    check_endpoints (some ["http://good", "http://bad"]) 30
        (fun u => if u = "http://bad" then ReqOutcome.otherExc "TypeError"
                  else ReqOutcome.timeoutExc)
      = Except.error "TypeError" := by decide

/-- C1 (amended): any ordinary request failure (an exception in the
`requests.exceptions.RequestException` hierarchy, including `Timeout`)
raised while checking a URL is captured inside `check_endpoint` and
converted into a result for that URL alone, so as long as no check raises
an exception outside that hierarchy, `check_endpoints` never raises and
returns a result list. -/
theorem check_endpoints_never_raises_of_handled (urlFile : Option (List String))
    (timeout : ℤ) (beh : String → ReqOutcome)
    (h : ∀ url e, beh url ≠ ReqOutcome.otherExc e) :
    ∃ rs, check_endpoints urlFile timeout beh = Except.ok rs := by
  cases urlFile with
  | none => exact ⟨[⟨"N/A", "ERROR: URL file not found", none, none⟩], rfl⟩
  | some lines => exact runChecks_ok_of_handled (parseUrls lines) timeout beh h

/-- C1 witness: with every URL failing with a `ConnectionError` (an ordinary
request failure), the dispatcher returns a result list. -/
theorem check_endpoints_never_raises_of_handled_witness :
    ∃ rs, check_endpoints (some ["http://a", "http://b"]) 30
        (fun _ => ReqOutcome.requestExc "ConnectionError") = Except.ok rs :=
  check_endpoints_never_raises_of_handled (some ["http://a", "http://b"]) 30
    (fun _ => ReqOutcome.requestExc "ConnectionError")
    (fun _ _ h => ReqOutcome.noConfusion h)

/-- C2: whenever the dispatcher returns a result list, it contains exactly
one record per input URL and the multiset of `url` fields equals the
multiset of input URLs (duplicates included), each echoed back unchanged. -/
theorem check_endpoints_one_result_per_url (lines : List String) (timeout : ℤ)
    (beh : String → ReqOutcome) (rs : List EndpointResult)
    (h : check_endpoints (some lines) timeout beh = Except.ok rs) :
    rs.length = (parseUrls lines).length ∧
    (↑(rs.map EndpointResult.url) : Multiset String) = ↑(parseUrls lines) := by
  have hu : rs.map EndpointResult.url = parseUrls lines :=
    runChecks_urls (parseUrls lines) timeout beh rs h
  refine ⟨?_, by rw [hu]⟩
  have := congrArg List.length hu
  simpa using this

/-- C2 witness: two duplicate URLs yield two records echoing the URL. -/
theorem check_endpoints_one_result_per_url_witness :
    ([⟨"http://a", "TIMEOUT", none, none⟩, ⟨"http://a", "TIMEOUT", none, none⟩] :
        List EndpointResult).length = (parseUrls ["http://a", "http://a", "# c"]).length ∧
    (↑(([⟨"http://a", "TIMEOUT", none, none⟩, ⟨"http://a", "TIMEOUT", none, none⟩] :
        List EndpointResult).map EndpointResult.url) : Multiset String)
      = ↑(parseUrls ["http://a", "http://a", "# c"]) :=
  check_endpoints_one_result_per_url ["http://a", "http://a", "# c"] 30
    (fun _ => ReqOutcome.timeoutExc)
    [⟨"http://a", "TIMEOUT", none, none⟩, ⟨"http://a", "TIMEOUT", none, none⟩]
    (by decide)

/-- C3: in every result list the dispatcher returns — from any Checker
branch or the synthetic missing-file record — each record's `status` field
is present exactly when its `time` field is present. -/
theorem check_endpoints_status_iff_time (urlFile : Option (List String))
    (timeout : ℤ) (beh : String → ReqOutcome) (rs : List EndpointResult)
    (h : check_endpoints urlFile timeout beh = Except.ok rs) :
    ∀ r ∈ rs, (r.status.isSome ↔ r.time.isSome) := by
  cases urlFile with
  | none =>
      simp [check_endpoints] at h
      subst h
      simp
  | some lines => exact runChecks_status_iff_time (parseUrls lines) timeout beh rs h

/-- C3 witness: a run mixing a connection failure and a hard timeout; every
record satisfies the together-present invariant. -/
theorem check_endpoints_status_iff_time_witness :
    ((⟨"http://a", "DOWN (ConnectionError)", none, none⟩ : EndpointResult).status.isSome ↔
      (⟨"http://a", "DOWN (ConnectionError)", none, none⟩ : EndpointResult).time.isSome) ∧
    ((⟨"http://b", "TIMEOUT", none, none⟩ : EndpointResult).status.isSome ↔
      (⟨"http://b", "TIMEOUT", none, none⟩ : EndpointResult).time.isSome) :=
  ⟨check_endpoints_status_iff_time (some ["http://a", "http://b"]) 30
      (fun u => if u = "http://a" then ReqOutcome.requestExc "ConnectionError"
                else ReqOutcome.timeoutExc)
      [⟨"http://a", "DOWN (ConnectionError)", none, none⟩,
       ⟨"http://b", "TIMEOUT", none, none⟩]
      (by decide) ⟨"http://a", "DOWN (ConnectionError)", none, none⟩ (by decide),
   check_endpoints_status_iff_time (some ["http://a", "http://b"]) 30
      (fun u => if u = "http://a" then ReqOutcome.requestExc "ConnectionError"
                else ReqOutcome.timeoutExc)
      [⟨"http://a", "DOWN (ConnectionError)", none, none⟩,
       ⟨"http://b", "TIMEOUT", none, none⟩]
      (by decide) ⟨"http://b", "TIMEOUT", none, none⟩ (by decide)⟩

/-- C4: on a received response the Checker reports the received status code
(whatever it is) and the elapsed time rounded to two decimals, classifying
`UP` when the elapsed time is at most `timeout` and `TIMEOUT` when it
exceeds it; in particular a `200` response at elapsed `timeout + 0.01`
yields `TIMEOUT` with `status` and `time` both present. -/
theorem check_endpoint_success_spec (url : String) (timeout : ℤ) (code : ℕ)
    (raw : ℚ) :
    check_endpoint url timeout (ReqOutcome.success code raw)
      = Except.ok ⟨url, if round2 raw ≤ (timeout : ℚ) then "UP" else "TIMEOUT",
          some code, some (round2 raw)⟩
    ∧ check_endpoint url timeout (ReqOutcome.success 200 ((timeout : ℚ) + 1/100))
      = Except.ok ⟨url, "TIMEOUT", some 200, some ((timeout : ℚ) + 1/100)⟩ := by
  have h100 : round2 ((timeout : ℚ) + 1/100) = (timeout : ℚ) + 1/100 := by
    unfold round2
    have hc : ((timeout : ℚ) + 1/100) * 100 = ((100 * timeout + 1 : ℤ) : ℚ) := by
      push_cast
      ring
    rw [hc, round_intCast]
    push_cast
    ring
  refine ⟨rfl, ?_⟩
  simp only [check_endpoint, h100]
  rw [if_neg (by linarith)]

/-- C5: an explicit client-side timeout (`requests.exceptions.Timeout`)
yields `result = "TIMEOUT"` with `status` and `time` both absent. -/
theorem check_endpoint_hard_timeout (url : String) (timeout : ℤ) :
    check_endpoint url timeout ReqOutcome.timeoutExc
      = Except.ok ⟨url, "TIMEOUT", none, none⟩ := rfl

/-- C6: any other ordinary request failure yields `result = "DOWN (<exception
class name>)"` with `status` and `time` both absent. -/
theorem check_endpoint_request_failure (url : String) (timeout : ℤ)
    (excName : String) :
    check_endpoint url timeout (ReqOutcome.requestExc excName)
      = Except.ok ⟨url, "DOWN (" ++ excName ++ ")", none, none⟩ := rfl

/-- C7: when the URL file does not exist, the dispatcher runs no checks and
returns exactly the single synthetic record `{url := "N/A", result :=
"ERROR: URL file not found", status := none, time := none}`, regardless of
timeout or network behaviour. -/
theorem check_endpoints_missing_file (timeout : ℤ)
    (beh : String → ReqOutcome) :
    check_endpoints none timeout beh
      = Except.ok [⟨"N/A", "ERROR: URL file not found", none, none⟩] := rfl

/-- C8: when the URL file exists but its filtered contents yield no URLs,
the dispatcher returns the empty result list (no error, no synthetic
record). -/
theorem check_endpoints_empty_urls (lines : List String) (timeout : ℤ)
    (beh : String → ReqOutcome) (h : parseUrls lines = []) :
    check_endpoints (some lines) timeout beh = Except.ok [] := by
  simp only [check_endpoints, h, runChecks]

/-- C8 witness: a file of only a comment line and a blank line yields the
empty result list. -/
theorem check_endpoints_empty_urls_witness :
    check_endpoints (some ["# comment", "   "]) 30
      (fun _ => ReqOutcome.timeoutExc) = Except.ok [] :=
  check_endpoints_empty_urls ["# comment", "   "] 30
    (fun _ => ReqOutcome.timeoutExc) (by decide)

/-- C10: the timeout and max-workers settings are coerced by `int(...)` at
module load: the defaults are `30` and `10`; an integer string is accepted;
a fractional or non-numeric string makes `int` raise `ValueError` at load
time (`none`), so only whole-second timeouts are representable. -/
theorem config_int_coercion :
    TIMEOUT_config none = some 30 ∧ MAX_WORKERS_config none = some 10 ∧
    TIMEOUT_config (some "45") = some 45 ∧
    TIMEOUT_config (some "30.5") = none ∧ TIMEOUT_config (some "2.5") = none ∧
    MAX_WORKERS_config (some "ten") = none := by decide

end EndpointMonitor
